import Mathlib

/-!
Verification of the VHF-Radio-AnalysisV2 ingestion / storage / enrichment /
change-feed pipeline.

The development shallowly embeds the relevant parts of the Python source:

* `data.py` (`AudioMetadata`): the SQLite-backed store.  The table
  `audio_metadata` is modelled as a list of `Row` values in rowid order
  together with the next AUTOINCREMENT id; the `UNIQUE(filepath)` index with
  `ON CONFLICT(filepath) DO NOTHING` is modelled inside `add_metadata` by the
  duplicate check on the `filepath` column, exactly as the SQL behaves.
* `app.py`: `process_file_progressive`, `process_all_operations` (the
  enrichment worker) and `midnight_updater`.
* `utils.py`: filename attribute helpers, including the dynamic attribute
  lookup that `app.py` performs on the `utils` module.
* `incident_helper.py`: `classify_incident` and `_canonicalize`; the external
  collaborators (the Ollama LLM, the `re` regex engine and `rapidfuzz`) are
  abstracted as function parameters, with their library contracts stated as
  hypotheses where needed.
* `location_services.py`: `geocode_newton`, with the Google geocoding client
  abstracted as a function parameter.
* `scanner_dashboard.py`: `enhanced_monitor_database`, modelled as a state
  machine whose events are row inserts, subscriber-count changes and poll
  iterations (one loop body execution, sequentially consistent).

SQLite REAL columns are modelled as `Rat`; TEXT columns that may be NULL as
`Option String`.
-/

namespace VHFScanner

/-- One row of the `audio_metadata` table (schema from
`AudioMetadata._init_database` in `data.py`, including the backfilled
columns `streetview_url`, `property_owner`, `property_price`). -/
structure Row where
  id : Nat
  filename : String
  time_recorded : String
  transcript : Option String
  confidence : Option Rat
  incident_type : String
  address : Option String
  formatted_address : Option String
  maps_link : Option String
  system : Option String
  department : Option String
  channel : Option String
  modulation : Option String
  frequency : Option String
  tgid : Option String
  filepath : Option String
  date_created : String
  original_filename : Option String
  latitude : Option Rat
  longitude : Option Rat
  streetview_url : Option String
  property_owner : Option String
  property_price : Option Int
  deriving Repr, DecidableEq

/-- The `audio_metadata` table: rows in rowid order plus the next
AUTOINCREMENT id. -/
structure DB where
  rows : List Row
  nextId : Nat
  deriving Repr, DecidableEq

/-- Numeric value of two decimal digit characters, as Python's `int` on the
two-character regex capture (leading zeros allowed). -/
def twoDigits (a b : Char) : Nat :=
  10 * (a.toNat - 48) + (b.toNat - 48)

/-- Does the regex `(\d{2})-(\d{2})-(\d{2})` match at the head of the
character list?  Returns the captures `(month, day, two-digit year)`. -/
def matchDatePattern : List Char → Option (Nat × Nat × String)
  | a :: b :: '-' :: c :: d :: '-' :: e :: f :: _ =>
    if a.isDigit && b.isDigit && c.isDigit && d.isDigit && e.isDigit && f.isDigit then
      some (twoDigits a b, twoDigits c d, String.mk [e, f])
    else
      none
  | _ => none

/-- `re.search` for the date pattern: first position (leftmost) at which it
matches. -/
def searchDatePattern : List Char → Option (Nat × Nat × String)
  | [] => none
  | c :: cs =>
    match matchDatePattern (c :: cs) with
    | some r => some r
    | none => searchDatePattern cs

/-- `AudioMetadata._extract_date_from_filepath` (`data.py`): extract a date
like `09-18-25` from the path and render it as `9-18-2025`; `None` when the
path is falsy or the pattern is absent.  Python renders
`f"{int(month)}-{int(day)}-20{year}"` with the year kept verbatim. -/
def extract_date_from_filepath (filepath : String) : Option String :=
  if filepath = "" then
    none
  else
    match searchDatePattern filepath.toList with
    | some (m, d, yy) => some (toString m ++ "-" ++ toString d ++ "-20" ++ yy)
    | none => none

/-- The date used by `add_metadata` and `get_metadata`: the date extracted
from the filepath, else the current date (`today` stands for the
`f"{today.month}-{today.day}-{today.year}"` fallback string). -/
def dateOrToday (filepath : String) (today : String) : String :=
  (extract_date_from_filepath filepath).getD today

/-- The keyword-argument list of `AudioMetadata.add_metadata`.  `confidence`
is stored through `float(confidence or 0.0)`, the identity on a `Rat` value
(`0.0 or 0.0 == 0.0`); `incident_type` is stored through
`incident_type or "unknown"`, mapping the falsy empty string to
`"unknown"`. -/
structure AddArgs where
  filename : String
  time_recorded : String
  transcript : Option String
  system : Option String
  department : Option String
  channel : Option String
  modulation : Option String
  frequency : Option String
  tgid : Option String
  filepath : String
  confidence : Rat := 0
  incident_type : String := "unknown"
  address : Option String := none
  latitude : Option Rat := none
  longitude : Option Rat := none
  formatted_address : Option String := none
  maps_link : Option String := none
  streetview_url : Option String := none
  property_owner : Option String := none
  property_price : Option Int := none
  deriving Repr, DecidableEq

/-- The row inserted by `add_metadata`'s `INSERT` statement when no conflict
occurs: values in the column order of the statement, `original_filename`
bound to `filename`. -/
def insertedRow (db : DB) (a : AddArgs) (today : String) : Row :=
  { id := db.nextId
    filename := a.filename
    time_recorded := a.time_recorded
    transcript := a.transcript
    confidence := some a.confidence
    incident_type := if a.incident_type = "" then "unknown" else a.incident_type
    address := a.address
    formatted_address := a.formatted_address
    maps_link := a.maps_link
    system := a.system
    department := a.department
    channel := a.channel
    modulation := a.modulation
    frequency := a.frequency
    tgid := a.tgid
    filepath := some a.filepath
    date_created := dateOrToday a.filepath today
    original_filename := some a.filename
    latitude := a.latitude
    longitude := a.longitude
    streetview_url := a.streetview_url
    property_owner := a.property_owner
    property_price := a.property_price }

/-- `AudioMetadata.add_metadata` (`data.py`), success path: an
`INSERT ... ON CONFLICT(filepath) DO NOTHING`; when the `UNIQUE(filepath)`
index reports a conflict (`rowcount == 0`) the existing id is fetched with
`SELECT id FROM audio_metadata WHERE filepath = ?` (first row in rowid
order), otherwise the fresh `lastrowid` is returned. -/
def add_metadata (db : DB) (a : AddArgs) (today : String) : DB × Option Nat :=
  match db.rows.find? (fun r => r.filepath = some a.filepath) with
  | some r => (db, some r.id)
  | none =>
    ({ rows := db.rows ++ [insertedRow db a today], nextId := db.nextId + 1 },
     some db.nextId)

/-- `ORDER BY time_recorded DESC LIMIT 1` over a list of candidate rows. -/
def latestByTimeRecorded : List Row → Option Row
  | [] => none
  | r :: rs =>
    match latestByTimeRecorded rs with
    | none => some r
    | some r' => if r.time_recorded < r'.time_recorded then some r' else some r

/-- `AudioMetadata.get_metadata` (`data.py`): the latest row with this
`filepath` and derived `date_created`; `already_processed` is the claim that
the result is not `none` (`filename` is accepted but unused by the query,
as in the source). -/
def get_metadata (db : DB) (filename filepath : String) (today : String) :
    Option Row :=
  let date := dateOrToday filepath today
  latestByTimeRecorded
    (db.rows.filter (fun r => r.filepath = some filepath && r.date_created = date))

/-- Fold of `add_metadata` over a list of calls (each call carries its
argument record and the wall-clock fallback date at call time); returns the
final table and the list of returned ids, in call order. -/
def runAdds (db : DB) : List (AddArgs × String) → DB × List (Option Nat)
  | [] => (db, [])
  | (a, today) :: rest =>
    let step := add_metadata db a today
    let next := runAdds step.1 rest
    (next.1, step.2 :: next.2)

/-- `AudioMetadata.update_transcript` (`data.py`), committed effect of
`UPDATE audio_metadata SET transcript = ?, confidence = ?, address = ?
WHERE id = ?`: the three columns are overwritten unconditionally with the
bound values. -/
def update_transcript (db : DB) (incident_id : Nat) (transcript : Option String)
    (confidence : Option Rat) (address : Option String) : DB :=
  { db with rows := db.rows.map (fun r =>
      if r.id = incident_id then
        { r with transcript := transcript, confidence := confidence,
                 address := address }
      else r) }

/-- `AudioMetadata.update_incident_type` (`data.py`): committed effect of
`UPDATE audio_metadata SET incident_type = ? WHERE id = ?`. -/
def update_incident_type (db : DB) (incident_id : Nat)
    (incident_type : String) : DB :=
  { db with rows := db.rows.map (fun r =>
      if r.id = incident_id then { r with incident_type := incident_type }
      else r) }

/-- `AudioMetadata.update_location_info` (`data.py`): committed effect of
`UPDATE audio_metadata SET latitude = ?, longitude = ?,
formatted_address = ?, maps_link = ? WHERE id = ?`. -/
def update_location_info (db : DB) (incident_id : Nat)
    (latitude longitude : Option Rat)
    (formatted_address maps_link : Option String) : DB :=
  { db with rows := db.rows.map (fun r =>
      if r.id = incident_id then
        { r with latitude := latitude, longitude := longitude,
                 formatted_address := formatted_address, maps_link := maps_link }
      else r) }

/-- `AudioMetadata.update_streetview` (`data.py`): committed effect of
`UPDATE audio_metadata SET streetview_url = ? WHERE id = ?`. -/
def update_streetview (db : DB) (incident_id : Nat)
    (streetview_url : Option String) : DB :=
  { db with rows := db.rows.map (fun r =>
      if r.id = incident_id then { r with streetview_url := streetview_url }
      else r) }

/-- `AudioMetadata.update_property_info` (`data.py`): committed effect of
`UPDATE audio_metadata SET property_owner = ?, property_price = ?
WHERE id = ?`. -/
def update_property_info (db : DB) (incident_id : Nat)
    (property_owner : Option String) (property_price : Option Int) : DB :=
  { db with rows := db.rows.map (fun r =>
      if r.id = incident_id then
        { r with property_owner := property_owner,
                 property_price := property_price }
      else r) }

/-! ### Idempotent stub insertion (C1) and early visibility (C4) -/

/-- In a table whose rows all avoid filepath `fp`, the conflict lookup of
`add_metadata` finds nothing. -/
theorem find?_filepath_eq_none (rows : List Row) (fp : String)
    (h : ∀ r ∈ rows, r.filepath ≠ some fp) :
    rows.find? (fun r => r.filepath = some fp) = none := by
  apply List.find?_eq_none.mpr
  intro r hr
  simp only [decide_eq_true_eq]
  exact h r hr

/-- Once the conflict lookup resolves to a fixed winning row, any further
sequence of `add_metadata` calls for the same filepath leaves the table
unchanged and returns the winner's id each time. -/
theorem runAdds_conflict (db : DB) (fp : String) (r : Row)
    (h : db.rows.find? (fun row => row.filepath = some fp) = some r)
    (l : List (AddArgs × String)) (hl : ∀ x ∈ l, x.1.filepath = fp) :
    runAdds db l = (db, l.map (fun _ => some r.id)) := by
  induction l with
  | nil => rfl
  | cons x rest ih =>
    have hfp : x.1.filepath = fp := hl x (List.mem_cons_self x rest)
    have hstep : add_metadata db x.1 x.2 = (db, some r.id) := by
      unfold add_metadata
      rw [hfp, h]
    simp only [runAdds, hstep, ih (fun y hy => hl y (List.mem_cons_of_mem x hy)),
      List.map]

/-- **C1.** Starting from a table with no row for filepath `fp`, any
non-empty sequence of `add_metadata` calls for `fp` (arbitrary other
arguments and wall-clock dates) leaves exactly one row carrying `fp` in
`audio_metadata`, and every call returns the id of the first, winning
insert (`db.nextId`).  Uniqueness comes from the conflict check modelling
the `UNIQUE(filepath)` index with `ON CONFLICT(filepath) DO NOTHING`
inside `add_metadata` itself; no application-level seen-set is involved
in this model. -/
theorem add_metadata_idempotent_unique (db : DB) (fp : String)
    (l : List (AddArgs × String))
    (h0 : ∀ r ∈ db.rows, r.filepath ≠ some fp)
    (hne : l ≠ [])
    (hl : ∀ x ∈ l, x.1.filepath = fp) :
    ((runAdds db l).1.rows.filter (fun r => r.filepath = some fp)).length = 1 ∧
    (runAdds db l).2 = l.map (fun _ => some db.nextId) := by
  match l with
  | [] => exact absurd rfl hne
  | (a, today) :: rest =>
    have hfp : a.filepath = fp := hl (a, today) (List.mem_cons_self _ rest)
    have hnone : db.rows.find? (fun r => r.filepath = some a.filepath) = none := by
      rw [hfp]; exact find?_filepath_eq_none db.rows fp h0
    have hstep : add_metadata db a today =
        ({ rows := db.rows ++ [insertedRow db a today], nextId := db.nextId + 1 },
         some db.nextId) := by
      unfold add_metadata
      rw [hnone]
    have hrowfp : (insertedRow db a today).filepath = some fp := by
      simp [insertedRow, hfp]
    have hfind1 :
        (db.rows ++ [insertedRow db a today]).find?
          (fun row => row.filepath = some fp) = some (insertedRow db a today) := by
      rw [List.find?_append, find?_filepath_eq_none db.rows fp h0]
      simp [List.find?, hrowfp]
    have hrest :
        runAdds { rows := db.rows ++ [insertedRow db a today],
                  nextId := db.nextId + 1 } rest =
          ({ rows := db.rows ++ [insertedRow db a today], nextId := db.nextId + 1 },
           rest.map (fun _ => some (insertedRow db a today).id)) :=
      runAdds_conflict _ fp (insertedRow db a today) hfind1 rest
        (fun y hy => hl y (List.mem_cons_of_mem _ hy))
    have hid : (insertedRow db a today).id = db.nextId := rfl
    constructor
    · show ((runAdds db ((a, today) :: rest)).1.rows.filter
        (fun r => r.filepath = some fp)).length = 1
      simp only [runAdds, hstep, hrest, List.filter_append]
      rw [List.filter_eq_nil_iff.mpr (by
        intro r hr
        simp only [decide_eq_true_eq]
        exact h0 r hr)]
      simp [List.filter, hrowfp]
    · show (runAdds db ((a, today) :: rest)).2 = _
      simp only [runAdds, hstep, hrest, hid, List.map]

/-- Witness for C1 at a concrete table and two concrete calls. -/
theorem add_metadata_idempotent_unique_witness :
    (let db : DB := { rows := [], nextId := 1 }
     let a : AddArgs :=
       { filename := "Middlesex;Newton FD;FG.mp3"
         time_recorded := "08:00:01"
         transcript := some "[Processing...]"
         system := some "Middlesex"
         department := some "Newton FD"
         channel := some "FG"
         modulation := some "FM"
         frequency := some "482.3"
         tgid := some "1234"
         filepath := "C:/rec/10-12-25/Middlesex;Newton FD;FG.mp3" }
     let l := [(a, "10-12-2025"), (a, "10-12-2025")]
     ((runAdds db l).1.rows.filter
        (fun r => r.filepath = some a.filepath)).length = 1 ∧
     (runAdds db l).2 = l.map (fun _ => some db.nextId)) := by
  exact add_metadata_idempotent_unique _ _ _
    (by intro r hr; simp at hr) (by simp) (by intro x hx; simp at hx; simp [hx])

/-- Unfolding of `get_metadata` on a literal table value. -/
theorem get_metadata_mk (rows : List Row) (n : Nat) (fn fp today : String) :
    get_metadata { rows := rows, nextId := n } fn fp today =
      latestByTimeRecorded
        (rows.filter (fun r => r.filepath = some fp &&
          r.date_created = dateOrToday fp today)) := rfl

/-- **C4.** Immediately after a stub-creating `add_metadata` returns (the
filepath was not yet present, so the insert happened) and before any
enrichment update has run, `get_metadata` for the same filepath and the
same wall-clock date returns the freshly inserted row — in the Python
dictionary this is a non-null row with `already_processed = True`. -/
theorem get_metadata_after_add_nonnull (db : DB) (a : AddArgs) (today : String)
    (h0 : ∀ r ∈ db.rows, r.filepath ≠ some a.filepath) :
    get_metadata (add_metadata db a today).1 a.filename a.filepath today =
      some (insertedRow db a today) := by
  have hnone : db.rows.find? (fun r => r.filepath = some a.filepath) = none :=
    find?_filepath_eq_none db.rows a.filepath h0
  unfold add_metadata
  rw [hnone]
  show get_metadata
    { rows := db.rows ++ [insertedRow db a today], nextId := db.nextId + 1 }
    a.filename a.filepath today = some (insertedRow db a today)
  rw [get_metadata_mk]
  rw [List.filter_append]
  rw [List.filter_eq_nil_iff.mpr (by
    intro r hr
    simp only [Bool.and_eq_true, decide_eq_true_eq, not_and]
    intro hfp
    exact absurd hfp (h0 r hr))]
  have hrow : ((insertedRow db a today).filepath = some a.filepath ∧
      (insertedRow db a today).date_created = dateOrToday a.filepath today) :=
    ⟨rfl, rfl⟩
  simp [List.filter, latestByTimeRecorded, hrow.1, hrow.2]

/-- Witness for C4 at a concrete table and call. -/
theorem get_metadata_after_add_nonnull_witness :
    (let db : DB := { rows := [], nextId := 1 }
     let a : AddArgs :=
       { filename := "Middlesex;Newton PD;Dispatch.mp3"
         time_recorded := "09:15:00"
         transcript := some "[Processing...]"
         system := some "Middlesex"
         department := some "Newton PD"
         channel := some "Dispatch"
         modulation := some "FM"
         frequency := some "470.1"
         tgid := some "400"
         filepath := "C:/rec/10-12-25/Middlesex;Newton PD;Dispatch.mp3" }
     get_metadata (add_metadata db a "10-12-2025").1 a.filename a.filepath
        "10-12-2025" = some (insertedRow db a "10-12-2025")) := by
  exact get_metadata_after_add_nonnull _ _ _ (by intro r hr; simp at hr)

/-! ### Field-group updates are not monotone (C3) -/

/-- A concrete pre-enriched row used in counterexamples: id 1, a committed
transcript and a committed non-null address. -/
def enrichedRow : Row :=
  { id := 1
    filename := "Middlesex;Newton PD;Dispatch.mp3"
    time_recorded := "09:15:00"
    transcript := some "units responding to 129 Florence St"
    confidence := some (91/100)
    incident_type := "Medical"
    address := some "129 Florence St"
    formatted_address := none
    maps_link := none
    system := some "Middlesex"
    department := some "Newton PD"
    channel := some "Dispatch"
    modulation := some "FM"
    frequency := some "470.1"
    tgid := some "400"
    filepath := some "C:/rec/10-12-25/Middlesex;Newton PD;Dispatch.mp3"
    date_created := "10-12-2025"
    original_filename := some "Middlesex;Newton PD;Dispatch.mp3"
    latitude := none
    longitude := none
    streetview_url := none
    property_owner := none
    property_price := none }

/-- **C3 counterexample.** The claim fails on the code: a row whose
`address` was previously set non-null (`"129 Florence St"`) has that
address overwritten with NULL by a later `update_transcript` call that
passes `address = None` — exactly the call `process_all_operations` makes
on a transcription error (`"[Transcription Error]", 0.0, None`).  The
`UPDATE` statement has no `COALESCE`/guard, so the non-null value does not
survive. -/
theorem update_transcript_nulls_address_cex :
    enrichedRow.address = some "129 Florence St" ∧
    (update_transcript { rows := [enrichedRow], nextId := 2 } 1
        (some "[Transcription Error]") (some 0) none).rows.map Row.address = [none] := by
  constructor
  · rfl
  · rfl

/-- **C3 amended.** What does hold: the five update operations write
pairwise disjoint column groups, so an update of a *different* group never
overwrites (in particular never nulls) a previously set field — only a
repeated call of the *same* operation can, as the counterexample shows.
Each conjunct projects the columns outside the called operation's group
and states they are unchanged on every row. -/
theorem update_ops_group_disjoint (db : DB) (incident_id : Nat)
    (t : Option String) (c : Option Rat) (a : Option String) (ty : String)
    (la lo : Option Rat) (fa ml sv po : Option String) (pp : Option Int)
    (i : Nat) :
    ((update_transcript db incident_id t c a).rows[i]?).map
        (fun r => (r.incident_type, r.latitude, r.longitude,
                   r.formatted_address, r.maps_link, r.streetview_url,
                   r.property_owner, r.property_price)) =
      (db.rows[i]?).map
        (fun r => (r.incident_type, r.latitude, r.longitude,
                   r.formatted_address, r.maps_link, r.streetview_url,
                   r.property_owner, r.property_price)) ∧
    ((update_incident_type db incident_id ty).rows[i]?).map
        (fun r => (r.transcript, r.confidence, r.address, r.latitude,
                   r.longitude, r.formatted_address, r.maps_link,
                   r.streetview_url, r.property_owner, r.property_price)) =
      (db.rows[i]?).map
        (fun r => (r.transcript, r.confidence, r.address, r.latitude,
                   r.longitude, r.formatted_address, r.maps_link,
                   r.streetview_url, r.property_owner, r.property_price)) ∧
    ((update_location_info db incident_id la lo fa ml).rows[i]?).map
        (fun r => (r.transcript, r.confidence, r.address, r.incident_type,
                   r.streetview_url, r.property_owner, r.property_price)) =
      (db.rows[i]?).map
        (fun r => (r.transcript, r.confidence, r.address, r.incident_type,
                   r.streetview_url, r.property_owner, r.property_price)) ∧
    ((update_streetview db incident_id sv).rows[i]?).map
        (fun r => (r.transcript, r.confidence, r.address, r.incident_type,
                   r.latitude, r.longitude, r.formatted_address, r.maps_link,
                   r.property_owner, r.property_price)) =
      (db.rows[i]?).map
        (fun r => (r.transcript, r.confidence, r.address, r.incident_type,
                   r.latitude, r.longitude, r.formatted_address, r.maps_link,
                   r.property_owner, r.property_price)) ∧
    ((update_property_info db incident_id po pp).rows[i]?).map
        (fun r => (r.transcript, r.confidence, r.address, r.incident_type,
                   r.latitude, r.longitude, r.formatted_address, r.maps_link,
                   r.streetview_url)) =
      (db.rows[i]?).map
        (fun r => (r.transcript, r.confidence, r.address, r.incident_type,
                   r.latitude, r.longitude, r.formatted_address, r.maps_link,
                   r.streetview_url)) := by
  refine ⟨?_, ?_, ?_, ?_, ?_⟩ <;>
    · simp only [update_transcript, update_incident_type, update_location_info,
        update_streetview, update_property_info, List.getElem?_map]
      cases db.rows[i]? with
      | none => rfl
      | some r =>
        simp only [Option.map]
        split <;> rfl

/-! ### The change-feed polling loop (C2)

`enhanced_monitor_database` (`scanner_dashboard.py`) is modelled as a state
machine.  One `poll` is one execution of the loop body, sequentially
consistent with inserts (the loop reads the table under `db_lock`).  The
database file modification time is modelled as a counter bumped by every
write.  A broadcast is recorded as the list of row ids of the
`new_incidents` batch passed to `socketio.emit("new_incidents", ...)`. -/

/-- State of the monitoring loop together with the shared table, the
dashboard's current date, the subscriber count (`connected_clients`) and the
history of emitted batches. -/
structure MonState where
  db : DB
  currentDate : String
  mtime : Nat
  clients : Nat
  lastKnownId : Option Nat
  lastDbMtime : Option Nat
  broadcasts : List (List Nat)
  deriving Repr, DecidableEq

/-- `SELECT MAX(id) FROM audio_metadata WHERE date_created = ?`, with the
Python coercion `result[0] if result and result[0] else 0` (NULL → 0). -/
def maxIdOn (db : DB) (date : String) : Nat :=
  ((db.rows.filter (fun r => decide (r.date_created = date))).map Row.id).foldr
    max 0

/-- `SELECT id, ... FROM audio_metadata WHERE date_created = ? AND id > ?
ORDER BY id ASC` — the ids of the fetched `new_records` (list order is id
order because rows are stored in rowid order). -/
def fetchIds (db : DB) (date : String) (w : Nat) : List Nat :=
  (db.rows.filter (fun r => decide (r.date_created = date) && decide (w < r.id))).map
    Row.id

/-- One body execution of the `while monitoring_active` loop of
`enhanced_monitor_database`: modification-time check, max-id check,
initialization of the two watermarks when still `None`, fetch of the new
records when the id watermark advanced, advance of `last_known_id` to
`current_max_id` when the fetch was non-empty, and broadcast only when
`connected_clients` is non-empty.  Heartbeat emissions carry no row ids and
are not recorded. -/
def poll (st : MonState) : MonState :=
  let current_db_mtime := st.mtime
  let db_file_changed : Bool :=
    match st.lastDbMtime with
    | none => false
    | some m => decide (current_db_mtime ≠ m)
  let lastDbMtime0 :=
    match st.lastDbMtime with
    | none => some current_db_mtime
    | some m => some m
  let current_max_id := maxIdOn st.db st.currentDate
  let id_changed : Bool :=
    match st.lastKnownId with
    | none => false
    | some w => decide (w < current_max_id)
  let lastKnown0 :=
    match st.lastKnownId with
    | none => some current_max_id
    | some w => some w
  if db_file_changed || id_changed then
    match st.lastKnownId with
    | none =>
      { st with lastKnownId := lastKnown0, lastDbMtime := some current_db_mtime }
    | some w =>
      if w < current_max_id then
        let batch := fetchIds st.db st.currentDate w
        if batch = [] then
          { st with lastKnownId := lastKnown0,
                    lastDbMtime := some current_db_mtime }
        else
          { st with lastKnownId := some current_max_id,
                    lastDbMtime := some current_db_mtime,
                    broadcasts :=
                      if 0 < st.clients then st.broadcasts ++ [batch]
                      else st.broadcasts }
      else
        { st with lastKnownId := lastKnown0,
                  lastDbMtime := some current_db_mtime }
  else
    { st with lastKnownId := lastKnown0, lastDbMtime := lastDbMtime0 }

/-- Events interleaved with the monitoring loop: a row insertion through
`add_metadata` (bumping the file modification counter), a change in the
number of connected clients, and one poll iteration. -/
inductive MEvent where
  | ins (a : AddArgs) (today : String)
  | setClients (n : Nat)
  | poll
  deriving Repr

/-- One event step. -/
def mstep (st : MonState) : MEvent → MonState
  | .ins a today =>
    { st with db := (add_metadata st.db a today).1, mtime := st.mtime + 1 }
  | .setClients n => { st with clients := n }
  | .poll => poll st

/-- Run of the monitoring loop interleaved with inserts and client changes. -/
def runMon (st : MonState) : List MEvent → MonState
  | [] => st
  | e :: es => runMon (mstep st e) es

/-- Initial state: empty table (AUTOINCREMENT starts at 1), no watermark
yet, zero subscribers. -/
def initMon (date : String) : MonState :=
  { db := { rows := [], nextId := 1 }
    currentDate := date
    mtime := 0
    clients := 0
    lastKnownId := none
    lastDbMtime := none
    broadcasts := [] }

/-- Concrete stub arguments used in the C2 counterexample run. -/
def cexArgs : AddArgs :=
  { filename := "Middlesex;Newton PD;Dispatch.mp3"
    time_recorded := "09:15:00"
    transcript := some "[Processing...]"
    system := some "Middlesex"
    department := some "Newton PD"
    channel := some "Dispatch"
    modulation := some "FM"
    frequency := some "470.1"
    tgid := some "400"
    filepath := "C:/rec/10-12-25/Middlesex;Newton PD;Dispatch.mp3" }

/-- **C2 counterexample.** The claim fails on the code for rows inserted
while zero subscribers are connected: the loop advances `last_known_id` to
`current_max_id` whenever the fetch is non-empty, *before* checking
`connected_clients`, so a row polled while no client is connected is
dropped.  Concretely: one poll (initializes the watermark), one insert
(row id 1, current date), one poll with zero clients (watermark advances
to 1, nothing broadcast), a client connects, two further polls: the
broadcast history stays empty, and the final state is a fixpoint of
`poll`, so row 1 never appears in any batch. -/
theorem enhanced_monitor_drops_zero_subscriber_rows_cex :
    (runMon (initMon "10-12-2025")
        [.poll, .ins cexArgs "10-12-2025", .poll, .setClients 1, .poll,
         .poll]).broadcasts = [] ∧
    (∃ r ∈ (runMon (initMon "10-12-2025")
        [.poll, .ins cexArgs "10-12-2025", .poll, .setClients 1, .poll,
         .poll]).db.rows, r.id = 1 ∧ r.date_created = "10-12-2025") ∧
    0 < (runMon (initMon "10-12-2025")
        [.poll, .ins cexArgs "10-12-2025", .poll, .setClients 1, .poll,
         .poll]).clients ∧
    poll (runMon (initMon "10-12-2025")
        [.poll, .ins cexArgs "10-12-2025", .poll, .setClients 1, .poll,
         .poll]) =
      runMon (initMon "10-12-2025")
        [.poll, .ins cexArgs "10-12-2025", .poll, .setClients 1, .poll,
         .poll] := by
  refine ⟨rfl, ⟨(runMon (initMon "10-12-2025")
      [.poll, .ins cexArgs "10-12-2025", .poll, .setClients 1, .poll,
       .poll]).db.rows.head (by decide), by decide⟩, by decide, rfl⟩

/-- Every member of a list of naturals is bounded by `foldr max 0`. -/
theorem mem_le_foldr_max {l : List Nat} {x : Nat} (h : x ∈ l) :
    x ≤ l.foldr max 0 := by
  induction l with
  | nil => cases h
  | cons a t ih =>
    rcases List.mem_cons.mp h with rfl | hmem
    · exact le_max_left _ _
    · exact le_trans (ih hmem) (le_max_right _ _)

/-- Well-formedness of the table: rows are in strictly increasing id order
(rowid order) and every id is below the AUTOINCREMENT counter. -/
def RowsWF (db : DB) : Prop :=
  List.Pairwise (fun r1 r2 => r1.id < r2.id) db.rows ∧
  ∀ r ∈ db.rows, r.id < db.nextId

/-- `add_metadata` preserves table well-formedness. -/
theorem rowsWF_add_metadata (db : DB) (a : AddArgs) (today : String)
    (h : RowsWF db) : RowsWF (add_metadata db a today).1 := by
  unfold add_metadata
  cases hf : db.rows.find? (fun r => r.filepath = some a.filepath) with
  | some r => exact h
  | none =>
    constructor
    · refine List.pairwise_append.mpr ⟨h.1, List.pairwise_singleton _ _, ?_⟩
      intro r hr r' hr'
      rw [List.mem_singleton.mp hr']
      exact h.2 r hr
    · intro r hr
      rcases List.mem_append.mp hr with hold | hnew
      · exact Nat.lt_succ_of_lt (h.2 r hold)
      · rw [List.mem_singleton.mp hnew]
        exact Nat.lt_succ_self _

/-- Ids fetched by `changes_since` are strictly above the watermark. -/
theorem fetchIds_gt {db : DB} {date : String} {w x : Nat}
    (h : x ∈ fetchIds db date w) : w < x := by
  unfold fetchIds at h
  rcases List.mem_map.mp h with ⟨r, hr, rfl⟩
  have h2 := (List.mem_filter.mp hr).2
  simp only [Bool.and_eq_true, decide_eq_true_eq] at h2
  exact h2.2

/-- Ids fetched by `changes_since` are bounded by the current max id of the
bucket. -/
theorem fetchIds_le_max {db : DB} {date : String} {w x : Nat}
    (h : x ∈ fetchIds db date w) : x ≤ maxIdOn db date := by
  unfold fetchIds at h
  rcases List.mem_map.mp h with ⟨r, hr, rfl⟩
  have hmem := (List.mem_filter.mp hr).1
  have h2 := (List.mem_filter.mp hr).2
  simp only [Bool.and_eq_true, decide_eq_true_eq] at h2
  have hr2 : r ∈ db.rows.filter (fun r => decide (r.date_created = date)) :=
    List.mem_filter.mpr ⟨hmem, by simp [h2.1]⟩
  exact mem_le_foldr_max (List.mem_map.mpr ⟨r, hr2, rfl⟩)

/-- The fetched batch is strictly increasing when the table is
well-formed. -/
theorem fetchIds_pairwise {db : DB} (date : String) (w : Nat)
    (h : List.Pairwise (fun r1 r2 => r1.id < r2.id) db.rows) :
    List.Pairwise (fun x y => x < y) (fetchIds db date w) := by
  unfold fetchIds
  exact List.pairwise_map.mpr (List.Pairwise.filter _ h)

/-- Invariant of the monitoring loop: a well-formed table, non-empty
strictly increasing batches, pairwise-disjoint batches, every broadcast id
bounded by the watermark, and no broadcast before the watermark is
initialized. -/
def MonInv (st : MonState) : Prop :=
  RowsWF st.db ∧
  (∀ b ∈ st.broadcasts, b ≠ [] ∧ List.Pairwise (fun x y => x < y) b) ∧
  List.Pairwise (fun b1 b2 => ∀ x ∈ b1, x ∉ b2) st.broadcasts ∧
  (∀ w, st.lastKnownId = some w → ∀ b ∈ st.broadcasts, ∀ x ∈ b, x ≤ w) ∧
  (st.lastKnownId = none → st.broadcasts = [])

/-- One poll iteration preserves the monitoring invariant. -/
theorem monInv_poll (st : MonState) (h : MonInv st) : MonInv (poll st) := by
  obtain ⟨hwf, hne, hdisj, hbound, hnone⟩ := h
  unfold poll
  cases hlk : st.lastKnownId with
  | none =>
    have hb : st.broadcasts = [] := hnone hlk
    simp only [hlk]
    split
    · refine ⟨hwf, hne, hdisj, ?_, fun _ => hb⟩
      intro w' hw' b hbm
      rw [hb] at hbm
      cases hbm
    · refine ⟨hwf, hne, hdisj, ?_, fun _ => hb⟩
      intro w' hw' b hbm
      rw [hb] at hbm
      cases hbm
  | some w =>
    simp only [hlk]
    split
    · split
      · split
        · refine ⟨hwf, hne, hdisj, ?_, ?_⟩
          · intro w' hw' b hb x hx
            cases hw'
            exact hbound w hlk b hb x hx
          · intro hc
            exact Option.noConfusion hc
        · rename_i hlt hbne
          by_cases hc : 0 < st.clients
          · simp only [if_pos hc]
            refine ⟨hwf, ?_, ?_, ?_, ?_⟩
            · intro b hb
              rcases List.mem_append.mp hb with hold | hnew
              · exact hne b hold
              · rw [List.mem_singleton.mp hnew]
                exact ⟨hbne, fetchIds_pairwise _ _ hwf.1⟩
            · refine List.pairwise_append.mpr
                ⟨hdisj, List.pairwise_singleton _ _, ?_⟩
              intro b hb b' hb' x hx
              rw [List.mem_singleton.mp hb']
              intro hxin
              exact absurd (hbound w hlk b hb x hx)
                (not_le_of_lt (fetchIds_gt hxin))
            · intro w' hw' b hb x hx
              cases hw'
              rcases List.mem_append.mp hb with hold | hnew
              · exact le_trans (hbound w hlk b hold x hx) (le_of_lt hlt)
              · rw [List.mem_singleton.mp hnew] at hx
                exact fetchIds_le_max hx
            · intro hcn
              exact Option.noConfusion hcn
          · simp only [if_neg hc]
            refine ⟨hwf, hne, hdisj, ?_, ?_⟩
            · intro w' hw' b hb x hx
              cases hw'
              exact le_trans (hbound w hlk b hb x hx) (le_of_lt hlt)
            · intro hcn
              exact Option.noConfusion hcn
      · refine ⟨hwf, hne, hdisj, ?_, ?_⟩
        · intro w' hw' b hb x hx
          cases hw'
          exact hbound w hlk b hb x hx
        · intro hcn
          exact Option.noConfusion hcn
    · refine ⟨hwf, hne, hdisj, ?_, ?_⟩
      · intro w' hw' b hb x hx
        cases hw'
        exact hbound w hlk b hb x hx
      · intro hcn
        exact Option.noConfusion hcn

/-- Every event step preserves the monitoring invariant. -/
theorem monInv_mstep (st : MonState) (e : MEvent) (h : MonInv st) :
    MonInv (mstep st e) := by
  cases e with
  | ins a today =>
    obtain ⟨hwf, hne, hdisj, hbound, hnone⟩ := h
    exact ⟨rowsWF_add_metadata st.db a today hwf, hne, hdisj, hbound, hnone⟩
  | setClients n =>
    obtain ⟨hwf, hne, hdisj, hbound, hnone⟩ := h
    exact ⟨hwf, hne, hdisj, hbound, hnone⟩
  | poll => exact monInv_poll st h

/-- The invariant holds in every reachable state of the monitoring loop. -/
theorem monInv_runMon (st : MonState) (h : MonInv st)
    (evs : List MEvent) : MonInv (runMon st evs) := by
  induction evs generalizing st with
  | nil => exact h
  | cons e es ih => exact ih (mstep st e) (monInv_mstep st e h)

/-- The initial monitoring state satisfies the invariant. -/
theorem monInv_initMon (date : String) : MonInv (initMon date) := by
  refine ⟨⟨List.Pairwise.nil, by intro r hr; cases hr⟩, ?_, List.Pairwise.nil,
    ?_, fun _ => rfl⟩
  · intro b hb; cases hb
  · intro w hw b hb; cases hb

/-- **C2 amended.** What does hold of `enhanced_monitor_database`: in every
run (inserts, client connect/disconnects and poll iterations interleaved
in any order from the initial state) every emitted batch is non-empty and
strictly increasing in id, no row id is duplicated within or across
batches — each id is broadcast at most once — and every broadcast id is
bounded by the current watermark.  The claim's completeness half is false:
as the counterexample shows, a batch fetched while zero subscribers are
connected advances the watermark without being broadcast, so those rows
never appear in any batch. -/
theorem enhanced_monitor_at_most_once (date : String) (evs : List MEvent) :
    (∀ b ∈ (runMon (initMon date) evs).broadcasts,
        b ≠ [] ∧ List.Pairwise (fun x y => x < y) b) ∧
    List.Pairwise (fun b1 b2 => ∀ x ∈ b1, x ∉ b2)
      (runMon (initMon date) evs).broadcasts ∧
    (∀ w, (runMon (initMon date) evs).lastKnownId = some w →
        ∀ b ∈ (runMon (initMon date) evs).broadcasts, ∀ x ∈ b, x ≤ w) := by
  have h := monInv_runMon (initMon date) (monInv_initMon date) evs
  exact ⟨h.2.1, h.2.2.1, h.2.2.2.1⟩

/-! ### Filename attribute helpers and stub creation (C5)

`utils.py` defines `_split_parts`, `get_system`, `get_department` and
`get_channel`, but `app.py` also calls `utils.get_modulation`,
`utils.get_frequency` and `utils.get_tgid`, which do not exist anywhere in
the repository; Python resolves module attributes dynamically, so those
calls raise `AttributeError` at run time.  The dynamic lookup is modelled
explicitly. -/

/-- Python exceptions distinguished by this development. -/
inductive PyErr where
  | attributeError (name : String)
  | typeError
  | generic
  deriving Repr, DecidableEq

/-- `os.path.basename` (ntpath: both `/` and `\` separate components):
the suffix after the last separator. -/
def basename (p : String) : String :=
  String.mk (p.toList.foldl
    (fun acc c => if c = '/' ∨ c = '\\' then [] else acc ++ [c]) [])

/-- Split a character list on a separator character (Python `str.split`:
the empty string yields one empty part). -/
def splitOnChar (sep : Char) : List Char → List (List Char)
  | [] => [[]]
  | c :: rest =>
    let r := splitOnChar sep rest
    if c = sep then [] :: r
    else
      match r with
      | h :: t => (c :: h) :: t
      | [] => [[c]]

/-- Characters removed by Python `str.strip()`. -/
def isPySpace (c : Char) : Bool :=
  c = ' ' ∨ c = '\t' ∨ c = '\n' ∨ c = '\r' ∨ c = '\x0b' ∨ c = '\x0c'

/-- Python `str.strip()`: drop whitespace from both ends. -/
def pyStrip (s : String) : String :=
  String.mk (((s.toList.dropWhile isPySpace).reverse.dropWhile isPySpace).reverse)

/-- Index of the last `.` in a character list, if any. -/
def lastIndexOfDot : List Char → Option Nat
  | [] => none
  | c :: rest =>
    match lastIndexOfDot rest with
    | some i => some (i + 1)
    | none => if c = '.' then some 0 else none

/-- Root part of `os.path.splitext`: drop the extension at the last dot,
provided a non-dot character precedes it (so `.bashrc` keeps its name). -/
def splitExtRoot (s : String) : String :=
  let cs := s.toList
  match lastIndexOfDot cs with
  | none => s
  | some p =>
    if (cs.take p).any (fun c => c ≠ '.') then String.mk (cs.take p) else s

/-- `utils._split_parts`: strip the extension from the basename and split
on `;`, stripping each part. -/
def _split_parts (filename : String) : List String :=
  (splitOnChar ';' (splitExtRoot (basename filename)).toList).map
    (fun cs => pyStrip (String.mk cs))

/-- `utils.get_system`: first `;`-part of the filename, else `""`. -/
def get_system (filename : String) : String :=
  match _split_parts filename with
  | p :: _ => p
  | [] => ""

/-- `utils.get_department`: second `;`-part of the filename, else `""`. -/
def get_department (filename : String) : String :=
  match _split_parts filename with
  | _ :: p :: _ => p
  | _ => ""

/-- `utils.get_channel`: third `;`-part of the filename, else `""`. -/
def get_channel (filename : String) : String :=
  match _split_parts filename with
  | _ :: _ :: p :: _ => p
  | _ => ""

/-- The module-level names defined by `utils.py` (its function defs and
top-level imports) — the attributes a `utils.<name>` lookup can resolve. -/
def utilsModuleAttrs : List String :=
  ["os", "datetime", "time", "get_most_recent_file",
   "wait_until_file_complete", "wait_for_new_file", "getFilename",
   "_split_parts", "get_system", "get_department", "get_channel",
   "getPrompt"]

/-- A call `utils.<name>(filename)` for the filename-attribute helpers
`app.py` uses: the three defined helpers dispatch; any other name raises
`AttributeError` (in particular `get_modulation`, `get_frequency` and
`get_tgid`, which `utils.py` does not define). -/
def utils_call (name : String) (filename : String) : Except PyErr String :=
  match name with
  | "get_system" => .ok (get_system filename)
  | "get_department" => .ok (get_department filename)
  | "get_channel" => .ok (get_channel filename)
  | other => .error (.attributeError other)

/-- `app.process_file_progressive` up to its return of the new incident id
(the queueing of `process_all_operations` onto the background executor has
no effect on the store and is omitted): skip when already processed or
non-Middlesex, then derive the raw attributes via `utils.<getter>` calls
and create the stub with `add_metadata`.  `created_time` stands for the
formatted `os.path.getctime` value. -/
def process_file_progressive (db : DB) (filepath : String)
    (today created_time : String) : Except PyErr (DB × Option Nat) := do
  let filename := basename filepath
  if (get_metadata db filename filepath today).isSome then
    return (db, none)
  else
    let system ← utils_call "get_system" filename
    if system ≠ "Middlesex" then
      return (db, none)
    else
      let department ← utils_call "get_department" filename
      let channel ← utils_call "get_channel" filename
      let modulation ← utils_call "get_modulation" filename
      let frequency ← utils_call "get_frequency" filename
      let tgid ← utils_call "get_tgid" filename
      let res := add_metadata db
        { filename := filename
          time_recorded := created_time
          transcript := some "[Processing...]"
          system := some system
          department := some department
          channel := some channel
          modulation := some modulation
          frequency := some frequency
          tgid := some tgid
          filepath := filepath
          confidence := 0
          incident_type := "unknown" } today
      return (res.1, res.2)

/-- **C5.** Evaluation at the failing input: for a fresh Middlesex file,
`process_file_progressive` raises
`AttributeError: module utils has no attribute get_modulation` before
`add_metadata` ever runs — no stub is created and no id returned, because
`utils.py` defines none of `get_modulation`, `get_frequency`, `get_tgid`
even though `app.py` calls all three.  The claim describes the evident
intent (the schema has the columns and the call sites exist), so this is
a code bug, not a spec error. -/
theorem process_file_progressive_attribute_error :
    process_file_progressive { rows := [], nextId := 1 }
        "C:\\Proscan\\Recordings\\10-12-25\\Middlesex;Newton PD;Dispatch.mp3"
        "10-12-2025" "09:15:00" =
      .error (.attributeError "get_modulation") ∧
    "get_modulation" ∉ utilsModuleAttrs ∧
    "get_frequency" ∉ utilsModuleAttrs ∧
    "get_tgid" ∉ utilsModuleAttrs := by
  refine ⟨by rfl, by decide, by decide, by decide⟩

/-! ### The enrichment worker (C6)

`process_all_operations` (`app.py`) with its external collaborators —
`api.getTranscript`, `incident_helper.classify_incident`,
`location_services.geocode_newton`, `location_services.streetview_url`,
`public_property_info.identify_at_lonlat` — abstracted as oracles whose
`Except.error` models a raised exception, absorbed exactly where the source
has a `try`/`except`. -/

/-- The value `api.getTranscript` hands back: `None` on its internal
failure path, otherwise a dict with `transcript`, `confidence`, `address`
(`.get` defaults already applied), or some other (string) value as the
source's `isinstance` fallback allows. -/
inductive TransResult where
  | pyNone
  | str (s : String)
  | dict (transcript : String) (confidence : Rat) (address : Option String)
  deriving Repr, DecidableEq

/-- Python truthiness of the transcription result (`if transcription_result:`;
a returned dict is non-empty, hence truthy). -/
def pyTruthyTrans : TransResult → Bool
  | .pyNone => false
  | .str s => decide (s ≠ "")
  | .dict _ _ _ => true

/-- Python truthiness of an optional string (`None` and `""` are falsy). -/
def truthyOptStr : Option String → Bool
  | none => false
  | some s => decide (s ≠ "")

/-- Python truthiness of an optional integer (`None` and `0` are falsy). -/
def truthyOptInt : Option Int → Bool
  | none => false
  | some n => decide (n ≠ 0)

/-- `app.process_all_operations`: transcribe (committing a sentinel on a
falsy result or a raised exception), classify when the local transcript is
non-blank, then geocode / street view / property lookup when an address
candidate is present, each stage committing its own field group and
absorbing its own failures. -/
def process_all_operations (db : DB) (incident_id : Nat)
    (tr : Except PyErr TransResult)
    (classify : String → Except PyErr String)
    (geocode : String → Except PyErr (Option (Rat × Rat × String × Option String)))
    (streetview : Rat → Rat → Except PyErr String)
    (property_lookup : Rat → Rat → Except PyErr (Option String × Option Int)) :
    DB :=
  -- STEP 1: transcription; locals (transcript, confidence, address) start
  -- as ("", 0.0, None) and are only set on a truthy result.
  let step1 : DB × String × Option String :=
    match tr with
    | .error _ =>
      (update_transcript db incident_id (some "[Transcription Error]") (some 0)
        none, "", none)
    | .ok .pyNone =>
      (update_transcript db incident_id (some "[Transcription Failed]") (some 0)
        none, "", none)
    | .ok (.str s) =>
      if s ≠ "" then
        (update_transcript db incident_id (some s) (some 0) none, s, none)
      else
        (update_transcript db incident_id (some "[Transcription Failed]") (some 0)
          none, "", none)
    | .ok (.dict t c a) =>
      (update_transcript db incident_id (some t) (some c) a, t, a)
  let db1 := step1.1
  let transcript := step1.2.1
  let address := step1.2.2
  -- STEP 2: classification, gated on `transcript and transcript.strip()`.
  let db2 :=
    if transcript ≠ "" ∧ pyStrip transcript ≠ "" then
      match classify transcript with
      | .ok label => update_incident_type db1 incident_id label
      | .error _ => db1
    else db1
  -- STEPS 3-5, gated on `address and address.strip()`.
  match address with
  | none => db2
  | some addr =>
    if addr ≠ "" ∧ pyStrip addr ≠ "" then
      match geocode addr with
      | .error _ => db2
      | .ok none => db2
      | .ok (some (lat, lng, fa, url)) =>
        let formatted := if fa = "" then addr else fa
        let db3 := update_location_info db2 incident_id (some lat) (some lng)
          (some formatted) url
        let db4 :=
          match streetview lat lng with
          | .ok sv => update_streetview db3 incident_id (some sv)
          | .error _ => db3
        match property_lookup lng lat with
        | .error _ => db4
        | .ok (owner, price) =>
          if truthyOptStr owner || truthyOptInt price then
            update_property_info db4 incident_id owner price
          else db4
    else db2

/-- **C6.** Whenever the transcription collaborator fails — returns a falsy
result or raises — the worker commits a non-empty failure sentinel
(`"[Transcription Failed]"` on a falsy result, `"[Transcription Error]"`
on a raise) with confidence 0.0 to the incident's row, rather than leaving
the transcript unset; the worker absorbs the failure and returns normally
(it is a total function of its oracles), so nothing propagates past the
enrichment-stage boundary. -/
theorem transcription_failure_commits_sentinel (db : DB) (incident_id : Nat)
    (classify : String → Except PyErr String)
    (geocode : String → Except PyErr (Option (Rat × Rat × String × Option String)))
    (streetview : Rat → Rat → Except PyErr String)
    (property_lookup : Rat → Rat → Except PyErr (Option String × Option Int))
    (e : PyErr) (r : TransResult) (hfalsy : pyTruthyTrans r = false)
    (i : Nat) (row : Row) (hrow : db.rows[i]? = some row)
    (hid : row.id = incident_id) :
    ((process_all_operations db incident_id (.error e) classify geocode
        streetview property_lookup).rows[i]?).map
        (fun r => (r.transcript, r.confidence)) =
      some (some "[Transcription Error]", some 0) ∧
    ((process_all_operations db incident_id (.ok r) classify geocode
        streetview property_lookup).rows[i]?).map
        (fun r => (r.transcript, r.confidence)) =
      some (some "[Transcription Failed]", some 0) ∧
    "[Transcription Error]" ≠ "" ∧ "[Transcription Failed]" ≠ "" := by
  have herr : process_all_operations db incident_id (.error e) classify geocode
      streetview property_lookup =
      update_transcript db incident_id (some "[Transcription Error]") (some 0)
        none := rfl
  have hok : process_all_operations db incident_id (.ok r) classify geocode
      streetview property_lookup =
      update_transcript db incident_id (some "[Transcription Failed]") (some 0)
        none := by
    cases r with
    | pyNone => rfl
    | str s =>
      have hs : s = "" := by
        by_contra hne
        simp [pyTruthyTrans, hne] at hfalsy
      subst hs
      rfl
    | dict t c a => simp [pyTruthyTrans] at hfalsy
  rw [herr, hok]
  refine ⟨?_, ?_, by decide, by decide⟩ <;>
  · simp only [update_transcript, List.getElem?_map, hrow, Option.map]
    rw [if_pos hid]

/-- Witness for C6 at a concrete table, row and collaborators. -/
theorem transcription_failure_commits_sentinel_witness :
    (let db : DB := { rows := [enrichedRow], nextId := 2 }
     ((process_all_operations db 1 (.error .generic)
        (fun _ => .ok "unknown") (fun _ => .ok none)
        (fun _ _ => .ok "url") (fun _ _ => .ok (none, none))).rows[0]?).map
        (fun r => (r.transcript, r.confidence)) =
      some (some "[Transcription Error]", some 0) ∧
     ((process_all_operations db 1 (.ok .pyNone)
        (fun _ => .ok "unknown") (fun _ => .ok none)
        (fun _ _ => .ok "url") (fun _ _ => .ok (none, none))).rows[0]?).map
        (fun r => (r.transcript, r.confidence)) =
      some (some "[Transcription Failed]", some 0) ∧
     "[Transcription Error]" ≠ "" ∧ "[Transcription Failed]" ≠ "") := by
  exact transcription_failure_commits_sentinel _ 1 _ _ _ _ .generic .pyNone
    rfl 0 enrichedRow rfl rfl

/-! ### Incident classification (C7)

`incident_helper.py`.  The Ollama LLM (`_query_llm`'s chat calls), the
`re` engine used by `_rules_fast_path`, and `rapidfuzz`'s `extractOne` are
external collaborators, abstracted as function parameters; the rule
patterns, label set and synonym table are embedded verbatim. -/

/-- ASCII lowering, as Python `str.lower()` on these inputs. -/
def lowerChar (c : Char) : Char :=
  if 'A' ≤ c ∧ c ≤ 'Z' then Char.ofNat (c.toNat + 32) else c

/-- Python `str.lower()`. -/
def pyLower (s : String) : String :=
  String.mk (s.toList.map lowerChar)

/-- Whitespace-run collapsing for `re.sub(r"\s+", " ", s)`; the boolean
tracks whether the previous character was whitespace. -/
def collapseWsAux : List Char → Bool → List Char
  | [], _ => []
  | c :: rest, prevSpace =>
    if isPySpace c then
      if prevSpace then collapseWsAux rest true
      else ' ' :: collapseWsAux rest true
    else c :: collapseWsAux rest false

/-- `incident_helper._normalize_text`: collapse whitespace runs to single
spaces and strip. -/
def _normalize_text (s : String) : String :=
  pyStrip (String.mk (collapseWsAux s.toList false))

/-- Number of words of Python `str.split()` (split on whitespace runs,
ignoring leading/trailing whitespace). -/
def countWordsAux : List Char → Bool → Nat
  | [], _ => 0
  | c :: rest, inWord =>
    if isPySpace c then countWordsAux rest false
    else (if inWord then 0 else 1) + countWordsAux rest true

/-- `len(transcript.split())`. -/
def pyWordCount (s : String) : Nat :=
  countWordsAux s.toList false

/-- Is `needle` a prefix of `hay`? -/
def listIsPrefix : List Char → List Char → Bool
  | [], _ => true
  | _ :: _, [] => false
  | a :: as, b :: bs => a = b && listIsPrefix as bs

/-- Substring containment on character lists. -/
def containsChars (needle : List Char) : List Char → Bool
  | [] => decide (needle = [])
  | c :: rest => listIsPrefix needle (c :: rest) || containsChars needle rest

/-- Python `needle in hay` for strings. -/
def strContains (hay needle : String) : Bool :=
  containsChars needle.toList hay.toList

/-- `incident_helper.LABELS`: the fixed closed label set. -/
def LABELS : List String :=
  ["Assault/Domestic", "Theft/Burglary", "Disturbance/Noise",
   "Weapons/Shots Fired", "Traffic Stop", "Motor Vehicle Accident",
   "Medical", "Fire Alarm", "Structure Fire", "Brush/Vehicle Fire",
   "Gas/Electrical Hazard", "Wires Down", "Hazmat", "Animal Complaint",
   "Welfare Check", "Suspicious Activity", "Missing Person",
   "Alarm (Burglar/Panic)", "unknown"]

/-- `incident_helper._SYNONYMS` in dict insertion order. -/
def _SYNONYMS : List (String × String) :=
  [("domestic", "Assault/Domestic"), ("assault", "Assault/Domestic"),
   ("battery", "Assault/Domestic"), ("fight", "Assault/Domestic"),
   ("larceny", "Theft/Burglary"), ("robbery", "Theft/Burglary"),
   ("shoplift", "Theft/Burglary"), ("break-in", "Theft/Burglary"),
   ("b&e", "Theft/Burglary"),
   ("noise", "Disturbance/Noise"), ("disturbance", "Disturbance/Noise"),
   ("dispute", "Disturbance/Noise"),
   ("shots fired", "Weapons/Shots Fired"), ("gunshots", "Weapons/Shots Fired"),
   ("weapon", "Weapons/Shots Fired"),
   ("traffic stop", "Traffic Stop"), ("stop vehicle", "Traffic Stop"),
   ("crash", "Motor Vehicle Accident"), ("mva", "Motor Vehicle Accident"),
   ("collision", "Motor Vehicle Accident"),
   ("medic", "Medical"), ("ems", "Medical"), ("overdose", "Medical"),
   ("alarm", "Fire Alarm"),
   ("structure fire", "Structure Fire"), ("house fire", "Structure Fire"),
   ("car fire", "Brush/Vehicle Fire"), ("brush", "Brush/Vehicle Fire"),
   ("gas leak", "Gas/Electrical Hazard"), ("odor of gas", "Gas/Electrical Hazard"),
   ("electrical", "Gas/Electrical Hazard"),
   ("wires down", "Wires Down"),
   ("hazmat", "Hazmat"), ("spill", "Hazmat"),
   ("dog", "Animal Complaint"), ("animal", "Animal Complaint"),
   ("well-being", "Welfare Check"), ("welfare", "Welfare Check"),
   ("wellbeing", "Welfare Check"),
   ("suspicious", "Suspicious Activity"),
   ("missing", "Missing Person"),
   ("burglar", "Alarm (Burglar/Panic)"), ("panic alarm", "Alarm (Burglar/Panic)")]

/-- `incident_helper._RULES`: the fast-path patterns verbatim (as written
in the source each `\\b` is a literal backslash followed by `b`, not a
word boundary) paired with their labels. -/
def _RULES : List (String × String) :=
  [("\\\\b(domestic|assault|battery|fight)\\\\b", "Assault/Domestic"),
   ("\\\\b(larceny|robbery|shoplift|break[- ]?in|b&e|burglary|stolen)\\\\b",
    "Theft/Burglary"),
   ("\\\\b(noise|disturbance|dispute|loud music)\\\\b", "Disturbance/Noise"),
   ("\\\\b(shots? fired|gunshots?|weapon|firearm)\\\\b", "Weapons/Shots Fired"),
   ("\\\\b(traffic stop|stop vehicle)\\\\b", "Traffic Stop"),
   ("\\\\b(motor vehicle accident|mva|crash|collision|fender bender)\\\\b",
    "Motor Vehicle Accident"),
   ("\\\\b(overdose|medic|ems|unconscious|difficulty breathing|cardiac)\\\\b",
    "Medical"),
   ("\\\\b(fire alarm|pull station|alarm activation)\\\\b", "Fire Alarm"),
   ("\\\\b(structure fire|house fire|building fire)\\\\b", "Structure Fire"),
   ("\\\\b(brush fire|car fire|vehicle fire|dumpster fire)\\\\b",
    "Brush/Vehicle Fire"),
   ("\\\\b(gas leak|odor of gas|natural gas|electrical hazard)\\\\b",
    "Gas/Electrical Hazard"),
   ("\\\\b(wires? down|utility wires?)\\\\b", "Wires Down"),
   ("\\\\b(hazmat|chemical spill|hazardous material)\\\\b", "Hazmat"),
   ("\\\\b(dog|coyote|animal complaint|animal control)\\\\b", "Animal Complaint"),
   ("\\\\b(welfare check|well[- ]?being|section 12)\\\\b", "Welfare Check"),
   ("\\\\b(suspicious|prowler|peeping|tampering)\\\\b", "Suspicious Activity"),
   ("\\\\b(missing person|missing juvenile|silver alert)\\\\b", "Missing Person"),
   ("\\\\b(burglar alarm|panic alarm|hold[- ]?up alarm)\\\\b",
    "Alarm (Burglar/Panic)")]

/-- `incident_helper._canonicalize`, with `rapidfuzz`'s
`extractOne(raw, LABELS, scorer=WRatio)` abstracted as `extractOne`
returning the best candidate and its score: direct lowercase match against
`LABELS`, then synonym containment, then fuzzy fallback accepted at score
≥ 85, defaulting to `"unknown"`. -/
def _canonicalize (extractOne : String → List String → String × Rat)
    (label : String) : String :=
  let raw := pyLower (pyStrip label)
  if raw = "" then "unknown"
  else
    match LABELS.find? (fun l => pyLower l = raw) with
    | some l => l
    | none =>
      match _SYNONYMS.find? (fun kv => strContains raw kv.1) with
      | some kv => kv.2
      | none =>
        let best := extractOne raw LABELS
        if 85 ≤ best.2 then best.1 else "unknown"

/-- `incident_helper._rules_fast_path`, with `re.search` abstracted as a
total Boolean oracle on (pattern, lowered text). -/
def _rules_fast_path (re_search : String → String → Bool) (text : String) :
    Option String :=
  match _RULES.find? (fun pl => re_search pl.1 (pyLower text)) with
  | some pl => some pl.2
  | none => none

/-- `incident_helper.classify_incident`: `"unknown"` for transcripts of
fewer than five words, fast-path rules, then the LLM (whose raw label is
canonicalized); on any LLM exception, fall back to the synonym table on
the lowered normalized text, else `"unknown"`. -/
def classify_incident (re_search : String → String → Bool)
    (llm : String → Except PyErr String)
    (extractOne : String → List String → String × Rat)
    (transcript : String) (use_rules_first : Bool) : String :=
  if pyWordCount transcript < 5 then "unknown"
  else
    let t := _normalize_text transcript
    match (if use_rules_first then _rules_fast_path re_search t else none) with
    | some lab => lab
    | none =>
      match llm t with
      | .ok rawLabel => _canonicalize extractOne rawLabel
      | .error _ =>
        match _SYNONYMS.find? (fun kv => strContains (pyLower t) kv.1) with
        | some kv => kv.2
        | none => "unknown"

/-- Every synonym value and every rule label is in `LABELS`, and
`"unknown"` is a member. -/
theorem labels_tables_closed :
    (∀ kv ∈ _SYNONYMS, kv.2 ∈ LABELS) ∧ (∀ pl ∈ _RULES, pl.2 ∈ LABELS) ∧
    "unknown" ∈ LABELS := by
  refine ⟨?_, ?_, by decide⟩ <;> decide

/-- `_canonicalize` lands in the closed label set whenever the fuzzy
collaborator honours its contract of returning one of the candidates. -/
theorem canonicalize_mem_labels (extractOne : String → List String → String × Rat)
    (hfz : ∀ s, (extractOne s LABELS).1 ∈ LABELS) (label : String) :
    _canonicalize extractOne label ∈ LABELS := by
  unfold _canonicalize
  set raw := pyLower (pyStrip label) with hraw
  by_cases h0 : raw = ""
  · simp only [if_pos h0]
    exact labels_tables_closed.2.2
  · simp only [if_neg h0]
    cases hd : LABELS.find? (fun l => pyLower l = raw) with
    | some l => exact List.mem_of_find?_eq_some hd
    | none =>
      cases hs : _SYNONYMS.find? (fun kv => strContains raw kv.1) with
      | some kv =>
        exact labels_tables_closed.1 kv (List.mem_of_find?_eq_some hs)
      | none =>
        by_cases hsc : (85 : Rat) ≤ (extractOne raw LABELS).2
        · simp only [if_pos hsc]
          exact hfz raw
        · simp only [if_neg hsc]
          exact labels_tables_closed.2.2

/-- A fast-path rule hit is one of the rules' labels. -/
theorem rules_fast_path_mem (re_search : String → String → Bool) (t : String)
    (lab : String) (h : _rules_fast_path re_search t = some lab) :
    lab ∈ LABELS := by
  unfold _rules_fast_path at h
  cases hf : _RULES.find? (fun pl => re_search pl.1 (pyLower t)) with
  | some pl =>
    rw [hf] at h
    injection h with h
    subst h
    exact labels_tables_closed.2.1 pl (List.mem_of_find?_eq_some hf)
  | none =>
    rw [hf] at h
    cases h

/-- **C7.** For every input transcript, `classify_incident` returns an
element of the fixed closed set `LABELS` (with `"unknown"` a member), and
returns `"unknown"` for empty or too-short transcripts (fewer than five
words); it is a total function of its collaborators — any exception from
the LLM collaborator is absorbed and resolved by the synonym fallback or
`"unknown"`.  The only contract assumed of the fuzzy collaborator is the
`rapidfuzz.extractOne` guarantee that the best match is drawn from the
candidate list. -/
theorem classify_incident_in_labels (re_search : String → String → Bool)
    (llm : String → Except PyErr String)
    (extractOne : String → List String → String × Rat)
    (hfz : ∀ s, (extractOne s LABELS).1 ∈ LABELS)
    (transcript : String) (use_rules_first : Bool) :
    classify_incident re_search llm extractOne transcript use_rules_first ∈
      LABELS ∧
    (pyWordCount transcript < 5 →
      classify_incident re_search llm extractOne transcript use_rules_first =
        "unknown") := by
  constructor
  · unfold classify_incident
    by_cases hshort : pyWordCount transcript < 5
    · simp only [if_pos hshort]
      decide
    · simp only [if_neg hshort]
      cases hrule : (if use_rules_first then
          _rules_fast_path re_search (_normalize_text transcript) else none) with
      | some lab =>
        refine rules_fast_path_mem re_search (_normalize_text transcript) lab ?_
        cases use_rules_first with
        | true => simpa using hrule
        | false => simp at hrule
      | none =>
        cases hllm : llm (_normalize_text transcript) with
        | ok rawLabel => exact canonicalize_mem_labels extractOne hfz rawLabel
        | error e =>
          cases hs : _SYNONYMS.find?
              (fun kv => strContains (pyLower (_normalize_text transcript)) kv.1) with
          | some kv =>
            exact labels_tables_closed.1 kv (List.mem_of_find?_eq_some hs)
          | none => exact labels_tables_closed.2.2
  · intro hshort
    unfold classify_incident
    simp only [if_pos hshort]

/-- Witness for C7 with concrete collaborators and a short transcript. -/
theorem classify_incident_in_labels_witness :
    classify_incident (fun _ _ => false) (fun _ => .error .generic)
        (fun _ _ => ("unknown", 0)) "hi" true ∈ LABELS ∧
    (pyWordCount "hi" < 5 →
      classify_incident (fun _ _ => false) (fun _ => .error .generic)
        (fun _ _ => ("unknown", 0)) "hi" true = "unknown") := by
  exact classify_incident_in_labels (fun _ _ => false) (fun _ => .error .generic)
    (fun _ _ => ("unknown", 0)) (fun _ => labels_tables_closed.2.2) "hi" true

/-! ### Geocoding restricted to Newton, MA (C8)

`location_services.geocode_newton`, with the Google Maps client
(`gmaps.geocode`, called with Newton component filters and bounds) and
`urllib.parse.quote_plus` abstracted as oracles. -/

/-- One entry of the list `gmaps.geocode` returns: geometry location,
formatted address, and optional place id. -/
structure GeoResult where
  lat : Rat
  lng : Rat
  formatted_address : String
  place_id : Option String
  deriving Repr, DecidableEq

/-- Southwest corner latitude of the Newton, MA bounding box (42.2869). -/
def newtonSWLat : Rat := 422869/10000

/-- Southwest corner longitude of the Newton, MA bounding box (-71.2687). -/
def newtonSWLng : Rat := -712687/10000

/-- Northeast corner latitude of the Newton, MA bounding box (42.3688). -/
def newtonNELat : Rat := 423688/10000

/-- Northeast corner longitude of the Newton, MA bounding box (-71.1575). -/
def newtonNELng : Rat := -711575/10000

/-- Coordinates within the Newton, MA bounding box. -/
def NewtonBounds (lat lng : Rat) : Prop :=
  newtonSWLat ≤ lat ∧ lat ≤ newtonNELat ∧ newtonSWLng ≤ lng ∧ lng ≤ newtonNELng

instance (lat lng : Rat) : Decidable (NewtonBounds lat lng) := by
  unfold NewtonBounds
  infer_instance

/-- `location_services.geocode_newton`: query `"<address>, Newton, MA"`;
`None` when the collaborator returns no result, when the first result's
formatted address is the over-generic `"Newton, MA, USA"`, or when its
coordinates fall outside the Newton bounding box; otherwise the 4-tuple
`(lat, lng, formatted_address, maps url)` (the url is `None` for a falsy
place id). -/
def geocode_newton (gmapsGeocode : String → List GeoResult)
    (qp : String → String) (address : String) :
    Option (Rat × Rat × String × Option String) :=
  match gmapsGeocode (address ++ ", Newton, MA") with
  | [] => none
  | r :: _ =>
    if r.formatted_address = "Newton, MA, USA" then none
    else if ¬ NewtonBounds r.lat r.lng then none
    else
      let url :=
        match r.place_id with
        | some pid =>
          if pid = "" then none
          else some ("https://www.google.com/maps/search/?api=1&query=" ++
            qp r.formatted_address ++ "&query_place_id=" ++ pid)
        | none => none
      some (r.lat, r.lng, r.formatted_address, url)

/-- **C8.** `geocode_newton` returns either `None` or a 4-tuple whose
coordinates lie inside the Newton, MA bounding box
(42.2869 ≤ lat ≤ 42.3688 and -71.2687 ≤ lng ≤ -71.1575); and it returns
`None` — a valid "no location" outcome, not an error — whenever the
collaborator returns no result, the formatted address is the over-generic
`"Newton, MA, USA"`, or the coordinates fall outside the service area. -/
theorem geocode_newton_in_bounds (gmapsGeocode : String → List GeoResult)
    (qp : String → String) (address : String) :
    (geocode_newton gmapsGeocode qp address = none ∨
      ∃ lat lng fa url,
        geocode_newton gmapsGeocode qp address = some (lat, lng, fa, url) ∧
        NewtonBounds lat lng) ∧
    (gmapsGeocode (address ++ ", Newton, MA") = [] →
      geocode_newton gmapsGeocode qp address = none) ∧
    (∀ r rest, gmapsGeocode (address ++ ", Newton, MA") = r :: rest →
      (r.formatted_address = "Newton, MA, USA" →
        geocode_newton gmapsGeocode qp address = none) ∧
      (¬ NewtonBounds r.lat r.lng →
        geocode_newton gmapsGeocode qp address = none)) := by
  refine ⟨?_, ?_, ?_⟩
  · unfold geocode_newton
    cases hg : gmapsGeocode (address ++ ", Newton, MA") with
    | nil => exact Or.inl rfl
    | cons r rest =>
      dsimp only
      by_cases hfa : r.formatted_address = "Newton, MA, USA"
      · rw [if_pos hfa]
        exact Or.inl rfl
      · rw [if_neg hfa]
        by_cases hb : NewtonBounds r.lat r.lng
        · rw [if_neg (not_not_intro hb)]
          exact Or.inr ⟨r.lat, r.lng, r.formatted_address, _, rfl, hb⟩
        · rw [if_pos hb]
          exact Or.inl rfl
  · intro hg
    unfold geocode_newton
    rw [hg]
  · intro r rest hg
    constructor
    · intro hfa
      unfold geocode_newton
      rw [hg]
      dsimp only
      rw [if_pos hfa]
    · intro hb
      unfold geocode_newton
      rw [hg]
      dsimp only
      by_cases hfa : r.formatted_address = "Newton, MA, USA"
      · rw [if_pos hfa]
      · rw [if_neg hfa, if_pos hb]

/-! ### Midnight rollover (C9)

`app.midnight_updater` constructs a fresh `AudioMetadata()` over the same
database file — re-running `_init_database` (whose only row-affecting
statement is the duplicate-cleanup `DELETE`) — and clears the in-memory
seen-files set. -/

/-- `SELECT MAX(id) ... WHERE filepath IS NOT NULL GROUP BY filepath`
evaluated for one group. -/
def maxIdForFilepath (rows : List Row) (fp : String) : Nat :=
  ((rows.filter (fun r => r.filepath = some fp)).map Row.id).foldr max 0

/-- Membership of an id in the grouped-max set of the cleanup `DELETE`'s
`id NOT IN (...)` subquery. -/
def inMaxIdSet (rows : List Row) (id : Nat) : Bool :=
  rows.any (fun r0 =>
    match r0.filepath with
    | some fp => decide (maxIdForFilepath rows fp = id)
    | none => false)

/-- Number of rows sharing a non-null filepath (the `HAVING COUNT(*) > 1`
subquery counts per group). -/
def countFilepath (rows : List Row) (fp : String) : Nat :=
  (rows.filter (fun r => r.filepath = some fp)).length

/-- The `WHERE` predicate of `_init_database`'s duplicate-cleanup
`DELETE`: non-null filepath, id not among the per-group maxima, and the
filepath belongs to a group with more than one row. -/
def dupDeletePred (rows : List Row) (r : Row) : Bool :=
  match r.filepath with
  | none => false
  | some fp => !(inMaxIdSet rows r.id) && decide (countFilepath rows fp > 1)

/-- `AudioMetadata._init_database` on an existing database: the
`CREATE TABLE/INDEX IF NOT EXISTS` statements are no-ops; the
duplicate-cleanup `DELETE` removes the rows its predicate selects. -/
def init_database (db : DB) : DB :=
  { db with rows := db.rows.filter (fun r => !(dupDeletePred db.rows r)) }

/-- The in-memory state `app.py` holds across days: the store handle and
the seen-files set. -/
structure AppState where
  db : DB
  seen : List String
  deriving Repr, DecidableEq

/-- The body of `midnight_updater`'s loop at the midnight trigger:
`Data = AudioMetadata()` (re-initializing over the same file) and
`seen_files.clear()`. -/
def midnight_rollover (st : AppState) : AppState :=
  { db := init_database st.db, seen := [] }

/-- With at most one row per non-null filepath (which is what the
`UNIQUE(filepath)` index guarantees for every table the program itself
built), no group has more than one member. -/
theorem countFilepath_le_one (rows : List Row)
    (h : rows.Pairwise (fun r1 r2 => r1.filepath = none ∨ r1.filepath ≠ r2.filepath))
    (fp : String) : countFilepath rows fp ≤ 1 := by
  induction rows with
  | nil => exact Nat.zero_le 1
  | cons r rs ih =>
    have hpair := List.pairwise_cons.mp h
    unfold countFilepath
    by_cases hr : r.filepath = some fp
    · have hnone : ∀ r' ∈ rs, ¬(r'.filepath = some fp) := by
        intro r' hr' hcontra
        rcases hpair.1 r' hr' with hx | hx
        · rw [hx] at hr; cases hr
        · exact hx (by rw [hr, hcontra])
      rw [List.filter_cons_of_pos (by simp [hr])]
      have : rs.filter (fun r => decide (r.filepath = some fp)) = [] :=
        List.filter_eq_nil_iff.mpr (by
          intro r' hr'
          simp only [decide_eq_true_eq]
          exact hnone r' hr')
      rw [this]
      exact le_refl 1
    · rw [List.filter_cons_of_neg (by simp [hr])]
      exact ih hpair.2

/-- **C9.** The midnight rollover never modifies or deletes a previously
committed row: whenever the table satisfies the per-filepath uniqueness
the `UNIQUE(filepath)` index enforces structurally (at most one row per
non-null filepath; NULL-filepath rows are exempt even from the cleanup's
`WHERE filepath IS NOT NULL`), the duplicate-cleanup `DELETE` matches no
row, so every row survives the rollover with identical id and field
values; only the in-memory seen-files set is reset. -/
theorem midnight_rollover_preserves_rows (st : AppState)
    (h : st.db.rows.Pairwise
      (fun r1 r2 => r1.filepath = none ∨ r1.filepath ≠ r2.filepath)) :
    (midnight_rollover st).db.rows = st.db.rows ∧
    (midnight_rollover st).db.nextId = st.db.nextId ∧
    (midnight_rollover st).seen = [] := by
  refine ⟨?_, rfl, rfl⟩
  show (init_database st.db).rows = st.db.rows
  unfold init_database
  apply List.filter_eq_self.mpr
  intro r hr
  simp only [Bool.not_eq_true']
  unfold dupDeletePred
  cases hfp : r.filepath with
  | none => rfl
  | some fp =>
    have hle := countFilepath_le_one st.db.rows h fp
    have : decide (countFilepath st.db.rows fp > 1) = false :=
      decide_eq_false (by omega)
    dsimp only
    rw [this, Bool.and_false]

/-- A second-day row used in the rollover witness. -/
def secondDayRow : Row :=
  { enrichedRow with
      id := 2
      filepath := some "C:/rec/10-13-25/b.mp3"
      date_created := "10-13-2025" }

/-- A legacy row with a NULL filepath used in the rollover witness. -/
def nullFilepathRow : Row :=
  { enrichedRow with
      id := 3
      filepath := none }

/-- Concrete two-day state for the rollover witness. -/
def rolloverWitnessState : AppState :=
  { db := { rows := [enrichedRow, secondDayRow, nullFilepathRow], nextId := 4 }
    seen := ["C:/rec/10-13-25/b.mp3"] }

/-- Witness for C9 at a concrete two-day table (one row with a NULL
filepath, two rows with distinct filepaths across two day buckets). -/
theorem midnight_rollover_preserves_rows_witness :
    (midnight_rollover rolloverWitnessState).db.rows =
      rolloverWitnessState.db.rows ∧
    (midnight_rollover rolloverWitnessState).db.nextId =
      rolloverWitnessState.db.nextId ∧
    (midnight_rollover rolloverWitnessState).seen = [] := by
  exact midnight_rollover_preserves_rows rolloverWitnessState (by decide)

/-! ### Update operations under database failure (C10)

The five update operations of `data.py` open a connection, set the WAL
pragma, execute one `UPDATE`, commit, and log — all inside
`try ... except sqlite3.Error`, with the connection closed in `finally`
(closing without a successful commit rolls the pending update back).  Each
operation is modelled with an injected failure point; the Python function
falls off its end, so the caller-visible return value is `None` (`.ok ()`)
on both the success and the caught-error path. -/

/-- The statement at which an injected `sqlite3.Error` is raised. -/
inductive SqliteStep where
  | connect
  | pragma
  | execute
  | commit
  deriving Repr, DecidableEq

/-- `AudioMetadata.update_transcript` as executed: on a `sqlite3.Error` at
any step the handler prints and the function returns `None` with the
table unchanged (an uncommitted `UPDATE` is rolled back by `close`); on
success the update is committed and the success log then interpolates
`f"...{confidence:.2%}"`, which raises `TypeError` for a `None`
confidence — after the commit, outside the `sqlite3.Error` handler. -/
def update_transcript_run (failAt : Option SqliteStep) (db : DB)
    (incident_id : Nat) (transcript : Option String)
    (confidence : Option Rat) (address : Option String) :
    DB × Except PyErr Unit :=
  match failAt with
  | some .connect => (db, .ok ())
  | some .pragma => (db, .ok ())
  | some .execute => (db, .ok ())
  | some .commit => (db, .ok ())
  | none =>
    let committed := update_transcript db incident_id transcript confidence
      address
    match confidence with
    | some _ => (committed, .ok ())
    | none => (committed, .error .typeError)

/-- `AudioMetadata.update_incident_type` as executed (its success log
formats nothing that can raise). -/
def update_incident_type_run (failAt : Option SqliteStep) (db : DB)
    (incident_id : Nat) (incident_type : String) : DB × Except PyErr Unit :=
  match failAt with
  | some _ => (db, .ok ())
  | none => (update_incident_type db incident_id incident_type, .ok ())

/-- `AudioMetadata.update_location_info` as executed. -/
def update_location_info_run (failAt : Option SqliteStep) (db : DB)
    (incident_id : Nat) (latitude longitude : Option Rat)
    (formatted_address maps_link : Option String) : DB × Except PyErr Unit :=
  match failAt with
  | some _ => (db, .ok ())
  | none =>
    (update_location_info db incident_id latitude longitude formatted_address
      maps_link, .ok ())

/-- `AudioMetadata.update_streetview` as executed. -/
def update_streetview_run (failAt : Option SqliteStep) (db : DB)
    (incident_id : Nat) (streetview_url : Option String) :
    DB × Except PyErr Unit :=
  match failAt with
  | some _ => (db, .ok ())
  | none => (update_streetview db incident_id streetview_url, .ok ())

/-- `AudioMetadata.update_property_info` as executed (its success log
guards the price interpolation with `if property_price`, so it cannot
raise on `None`). -/
def update_property_info_run (failAt : Option SqliteStep) (db : DB)
    (incident_id : Nat) (property_owner : Option String)
    (property_price : Option Int) : DB × Except PyErr Unit :=
  match failAt with
  | some _ => (db, .ok ())
  | none =>
    (update_property_info db incident_id property_owner property_price, .ok ())

/-- **C10 counterexample.** The claim's totality fails on the code:
`update_transcript` called with `confidence = None` (reachable — the
worker passes `transcription_result.get("confidence", 0.0)` through
unchecked) commits the update and then raises `TypeError` to the caller
from the success log's `f"{confidence:.2%}"`, which the
`except sqlite3.Error` handler does not catch — so it neither returns
`None` nor leaves the row unchanged on that raise. -/
theorem update_transcript_run_typeerror_cex :
    (update_transcript_run none { rows := [enrichedRow], nextId := 2 } 1
        (some "engine 2 on scene") none none).2 = .error .typeError ∧
    ((update_transcript_run none { rows := [enrichedRow], nextId := 2 } 1
        (some "engine 2 on scene") none none).1.rows.map Row.confidence =
      [none]) := by
  exact ⟨rfl, rfl⟩

/-- **C10 amended.** What does hold: every one of the five update
operations catches a `sqlite3.Error` raised at any of its database calls
(connect, pragma, execute, commit), returns `None` to the caller, and
leaves the whole table unchanged on such an error; each also returns the
same `None` on success, so no caller can distinguish a failed commit from
a successful one by the return value.  Totality holds for all five on
float confidences; only `update_transcript` with a `None` confidence
escapes with a `TypeError` (the counterexample). -/
theorem update_ops_silent_on_sqlite_error (db : DB) (incident_id : Nat)
    (t : Option String) (c : Rat) (a : Option String) (ty : String)
    (la lo : Option Rat) (fa ml sv po : Option String) (pp : Option Int)
    (s : SqliteStep) :
    update_transcript_run (some s) db incident_id t (some c) a = (db, .ok ()) ∧
    update_incident_type_run (some s) db incident_id ty = (db, .ok ()) ∧
    update_location_info_run (some s) db incident_id la lo fa ml =
      (db, .ok ()) ∧
    update_streetview_run (some s) db incident_id sv = (db, .ok ()) ∧
    update_property_info_run (some s) db incident_id po pp = (db, .ok ()) ∧
    (update_transcript_run none db incident_id t (some c) a).2 = .ok () ∧
    (update_incident_type_run none db incident_id ty).2 = .ok () ∧
    (update_location_info_run none db incident_id la lo fa ml).2 = .ok () ∧
    (update_streetview_run none db incident_id sv).2 = .ok () ∧
    (update_property_info_run none db incident_id po pp).2 = .ok () := by
  refine ⟨?_, rfl, rfl, rfl, rfl, rfl, rfl, rfl, rfl, rfl⟩
  cases s <;> rfl

end VHFScanner
